import Mathlib

/-!
# Funnel-metrics engine: shallow embedding and verification

This file embeds the metrics layer of a sales-funnel analytics dashboard
(`streamlit_app_simple.py`) in Lean 4 and settles a list of claims about it.

A Python dict of stage counts is modelled as `String → Option Int`; the
pervasive `metrics.get(stage, 0)` idiom is `mget`.  The derived-metric
functions (`calculate_metrics`, `calculate_bottleneck`,
`calculate_projections`, `calculate_lead_temperature`, and the six
adjacent-pair funnel rates computed in `main`) are translated line by line
from the source.  Real-number arithmetic is modelled over `ℚ`; Python's
`int(...)` truncation toward zero is `pyInt`; dicts returned by the
derived-metric functions are association lists consulted with a
last-write-wins lookup, matching Python dict assignment order.
-/

namespace Dash

/-- A metrics snapshot: a Python dict from stage name to integer count.
`none` models an absent key. -/
abbrev Metrics : Type := String → Option Int

/-- Python's `metrics.get(stage, 0)` (source: pervasive pattern). -/
def mget (m : Metrics) (k : String) : Int := (m k).getD 0

/-- Python dict assignment `d[stage] = v`. -/
def dset (m : Metrics) (k : String) (v : Int) : Metrics :=
  fun q => if q = k then some v else m q

/-- The canonical seven-stage set (source lines 656-664 and §3 of the sheet
layout). -/
def canonicalStages : List String :=
  ["Total Leads", "Qualified Leads", "Viewings Scheduled", "Viewings Completed",
   "Offers Made", "Offers Accepted", "Closed Sales"]

/-- Last-write-wins lookup in an association list: later bindings shadow
earlier ones, which is the semantics of building a Python dict by successive
assignment. -/
def lookupLast {α : Type} : List (String × α) → String → Option α
  | [], _ => none
  | (k, v) :: rest, q =>
    match lookupLast rest q with
    | some w => some w
    | none => if q = k then some v else none

/-- A snapshot built from explicit rows (duplicates: last write wins). -/
def ofRows (rows : List (String × Int)) : Metrics := fun k => lookupLast rows k

/-- A raw spreadsheet cell value for the `Count` column: an integer, or an
arbitrary string (the Metrics worksheet is loaded without numeric coercion,
source lines 597-599). -/
inductive Value where
  | i (n : Int)
  | s (str : String)
deriving DecidableEq

/-- A Python runtime error kind raised by the embedded code. -/
inductive PyErr where
  | valueError (msg : String)
deriving DecidableEq

/-- One step of parsing a decimal digit string (most significant first). -/
def stepDigit (acc : Option Nat) (c : Char) : Option Nat :=
  match acc with
  | none => none
  | some n => if c.isDigit then some (n * 10 + (c.toNat - 48)) else none

/-- Parse a nonempty all-digit character list as a natural number. -/
def parseDigits (cs : List Char) : Option Nat :=
  match cs with
  | [] => none
  | _ => cs.foldl stepDigit (some 0)

/-- Python `int(str)` on a string literal: optional sign followed by one or
more decimal digits; anything else raises `ValueError`. -/
def pyParseInt (s : String) : Option Int :=
  match s.data with
  | '-' :: rest => (parseDigits rest).map (fun n => -(n : Int))
  | '+' :: rest => (parseDigits rest).map (fun n => (n : Int))
  | cs => (parseDigits cs).map (fun n => (n : Int))

/-- Python `int(count)` on a cell value (source line 670): integers pass
through, strings must parse as an integer literal or raise `ValueError`. -/
def valueToInt : Value → Except PyErr Int
  | .i n => .ok n
  | .s str =>
    match pyParseInt str with
    | some n => .ok n
    | none => .error (.valueError str)

/-- The row loop of `calculate_metrics` (source lines 666-671): successive
dict assignment, aborting with the Python exception if `int(count)` raises. -/
def metricsLoop : List (String × Value) → Metrics → Except PyErr Metrics
  | [], m => .ok m
  | (stage, count) :: rest, m =>
    match valueToInt count with
    | .ok n => metricsLoop rest (dset m stage n)
    | .error e => .error e

/-- Source lines 653-672, `calculate_metrics`: an empty input table yields
the canonical all-zero dict; otherwise the rows are folded into an initially
empty dict, raising on a malformed count. -/
def calculate_metrics (rows : List (String × Value)) : Except PyErr Metrics :=
  if rows.isEmpty then
    .ok (fun k => if k ∈ canonicalStages then some 0 else none)
  else
    metricsLoop rows (fun _ => none)

/-- Observe a possibly-failed snapshot at one key (`some (d k)` on success,
`none` when the computation raised). -/
def exceptLookup (r : Except PyErr Metrics) (k : String) : Option (Option Int) :=
  match r with
  | .ok d => some (d k)
  | .error _ => none

/-! ## Funnel rates computed in `main` (source lines 1045-1051) -/

/-- Source line 1045, `lead_to_qual_rate`. -/
def lead_to_qual_rate (m : Metrics) : ℚ :=
  if 0 < mget m "Total Leads" then
    (mget m "Qualified Leads" : ℚ) / (mget m "Total Leads" : ℚ) * 100
  else 0

/-- Source line 1046, `qual_to_sched_rate`. -/
def qual_to_sched_rate (m : Metrics) : ℚ :=
  if 0 < mget m "Qualified Leads" then
    (mget m "Viewings Scheduled" : ℚ) / (mget m "Qualified Leads" : ℚ) * 100
  else 0

/-- Source line 1047, `sched_to_comp_rate`. -/
def sched_to_comp_rate (m : Metrics) : ℚ :=
  if 0 < mget m "Viewings Scheduled" then
    (mget m "Viewings Completed" : ℚ) / (mget m "Viewings Scheduled" : ℚ) * 100
  else 0

/-- Source line 1048, `comp_to_offer_rate`. -/
def comp_to_offer_rate (m : Metrics) : ℚ :=
  if 0 < mget m "Viewings Completed" then
    (mget m "Offers Made" : ℚ) / (mget m "Viewings Completed" : ℚ) * 100
  else 0

/-- Source line 1049, `offer_to_accept_rate`. -/
def offer_to_accept_rate (m : Metrics) : ℚ :=
  if 0 < mget m "Offers Made" then
    (mget m "Offers Accepted" : ℚ) / (mget m "Offers Made" : ℚ) * 100
  else 0

/-- Source line 1050, `accept_to_close_rate`. -/
def accept_to_close_rate (m : Metrics) : ℚ :=
  if 0 < mget m "Offers Accepted" then
    (mget m "Closed Sales" : ℚ) / (mget m "Offers Accepted" : ℚ) * 100
  else 0

/-- Source line 1051, `overall_close_rate`. -/
def overall_close_rate (m : Metrics) : ℚ :=
  if 0 < mget m "Total Leads" then
    (mget m "Closed Sales" : ℚ) / (mget m "Total Leads" : ℚ) * 100
  else 0

/-- The six adjacent pairs of the canonical stage order. -/
def funnelPairs : List (String × String) :=
  [("Total Leads", "Qualified Leads"),
   ("Qualified Leads", "Viewings Scheduled"),
   ("Viewings Scheduled", "Viewings Completed"),
   ("Viewings Completed", "Offers Made"),
   ("Offers Made", "Offers Accepted"),
   ("Offers Accepted", "Closed Sales")]

/-- The six adjacent-pair rates of `main`, in canonical order. -/
def mainRates (m : Metrics) : List ℚ :=
  [lead_to_qual_rate m, qual_to_sched_rate m, sched_to_comp_rate m,
   comp_to_offer_rate m, offer_to_accept_rate m, accept_to_close_rate m]

/-! ## `calculate_bottleneck` (source lines 674-699) -/

/-- One entry of the bottleneck list (Python dict with keys `stage`, `rate`,
`drop_off`, `from`, `to`). -/
structure Bneck where
  stage : String
  rate : ℚ
  drop : Int
  src : Int
  dst : Int
deriving DecidableEq

/-- Source lines 676-682, `conversion_stages`: label, from-count, to-count. -/
def conversion_stages (m : Metrics) : List (String × Int × Int) :=
  [("Lead → Qualified", mget m "Total Leads", mget m "Qualified Leads"),
   ("Qualified → Viewing", mget m "Qualified Leads", mget m "Viewings Completed"),
   ("Viewing → Offer", mget m "Viewings Completed", mget m "Offers Made"),
   ("Offer → Accepted", mget m "Offers Made", mget m "Offers Accepted"),
   ("Accepted → Closed", mget m "Offers Accepted", mget m "Closed Sales")]

/-- Build one bottleneck entry (source lines 687-695). -/
def mkB (t : String × Int × Int) : Bneck :=
  { stage := t.1
    rate := (t.2.2 : ℚ) / (t.2.1 : ℚ) * 100
    drop := t.2.1 - t.2.2
    src := t.2.1
    dst := t.2.2 }

/-- The filtering loop of `calculate_bottleneck` (source lines 684-695): a
pair contributes an entry exactly when its from-count is positive. -/
def bneckFilter (m : Metrics) : List Bneck :=
  ((conversion_stages m).filter (fun t => 0 < t.2.1)).map mkB

/-- Ordering used by `bottlenecks.sort(key=lambda x: x["rate"])`. -/
def rateLE (a b : Bneck) : Prop := a.rate ≤ b.rate

instance : DecidableRel rateLE := fun a b => inferInstanceAs (Decidable (a.rate ≤ b.rate))

instance : IsTotal Bneck rateLE := ⟨fun a b => le_total a.rate b.rate⟩

instance : IsTrans Bneck rateLE := ⟨fun _ _ _ h h2 => le_trans h h2⟩

/-- Source lines 674-699, `calculate_bottleneck`: filter, then stable sort
ascending by rate.  Python's list sort is stable; `List.insertionSort` with
`rateLE` has the same stable-sort semantics. -/
def calculate_bottleneck (m : Metrics) : List Bneck :=
  List.insertionSort rateLE (bneckFilter m)

/-- Position of a transition label in the original `conversion_stages`
order, used to state stability of the sort. -/
def stageIdx : String → Nat
  | "Lead → Qualified" => 0
  | "Qualified → Viewing" => 1
  | "Viewing → Offer" => 2
  | "Offer → Accepted" => 3
  | "Accepted → Closed" => 4
  | _ => 5

/-- Strict "rate, then original stage position" order: holding between all
ordered pairs of the output is exactly ascending-by-rate sortedness plus
stability of ties. -/
def lexLT (a b : Bneck) : Prop :=
  a.rate < b.rate ∨ (a.rate = b.rate ∧ stageIdx a.stage < stageIdx b.stage)

/-! ## `calculate_projections` (source lines 701-729) -/

/-- Python `int(x)`: truncation toward zero. -/
def pyInt (q : ℚ) : Int := if 0 ≤ q then ⌊q⌋ else ⌈q⌉

/-- Source lines 701-729, `calculate_projections`: `{}` when Total Leads is
0, otherwise the eight entries in dict-insertion order, with the two what-if
entries guarded by their rate being positive. -/
def calculate_projections (m : Metrics) : List (String × ℚ) :=
  let total := mget m "Total Leads"
  if total = 0 then []
  else
    let qual_rate : ℚ := (mget m "Qualified Leads" : ℚ) / (total : ℚ)
    let viewing_rate : ℚ := (mget m "Viewings Completed" : ℚ) / (total : ℚ)
    let offer_rate : ℚ := (mget m "Offers Made" : ℚ) / (total : ℚ)
    let close_rate : ℚ := (mget m "Closed Sales" : ℚ) / (total : ℚ)
    let projection_input : ℚ := 100
    [("input_leads", projection_input),
     ("projected_qualified", (pyInt (projection_input * qual_rate) : ℚ)),
     ("projected_viewings", (pyInt (projection_input * viewing_rate) : ℚ)),
     ("projected_offers", (pyInt (projection_input * offer_rate) : ℚ)),
     ("projected_closed", (pyInt (projection_input * close_rate) : ℚ)),
     ("current_close_rate", close_rate * 100),
     ("if_qual_improves_10",
       if 0 < qual_rate then
         (pyInt (projection_input * min (qual_rate * (11 / 10)) 1 * close_rate / qual_rate) : ℚ)
       else 0),
     ("if_viewing_improves_10",
       if 0 < viewing_rate then
         (pyInt (projection_input * close_rate / viewing_rate * min (viewing_rate * (11 / 10)) 1) : ℚ)
       else 0)]

/-! ## `calculate_lead_temperature` (source lines 731-776) -/

/-- Source lines 731-776, `calculate_lead_temperature`.  Note the early
return for `total == 0` yields a six-entry dict that has no
`quality_score`, `hot_to_close`, `warm_to_hot` or `cold_to_warm` key. -/
def calculate_lead_temperature (m : Metrics) : List (String × ℚ) :=
  let total := mget m "Total Leads"
  if total = 0 then
    [("hot", 0), ("warm", 0), ("cold", 0),
     ("hot_pct", 0), ("warm_pct", 0), ("cold_pct", 0)]
  else
    let qualified := mget m "Qualified Leads"
    let viewings_scheduled := mget m "Viewings Scheduled"
    let viewings_completed := mget m "Viewings Completed"
    let offers_made := mget m "Offers Made"
    let offers_accepted := mget m "Offers Accepted"
    let hot : Int := min viewings_completed (offers_made + offers_accepted)
    let warm : Int := max 0 (min qualified (viewings_scheduled + viewings_completed) - hot)
    let cold : Int := max 0 (total - hot - warm)
    let hot_pct : ℚ := if 0 < total then (hot : ℚ) / (total : ℚ) * 100 else 0
    let warm_pct : ℚ := if 0 < total then (warm : ℚ) / (total : ℚ) * 100 else 0
    let cold_pct : ℚ := if 0 < total then (cold : ℚ) / (total : ℚ) * 100 else 0
    let hot_to_close : ℚ :=
      if 0 < hot then (mget m "Closed Sales" : ℚ) / (hot : ℚ) * 100 else 0
    let warm_to_hot : ℚ := if 0 < warm then (hot : ℚ) / (warm : ℚ) * 100 else 0
    let cold_to_warm : ℚ := if 0 < cold then (warm : ℚ) / (cold : ℚ) * 100 else 0
    [("hot", (hot : ℚ)), ("warm", (warm : ℚ)), ("cold", (cold : ℚ)),
     ("hot_pct", hot_pct), ("warm_pct", warm_pct), ("cold_pct", cold_pct),
     ("hot_to_close", hot_to_close), ("warm_to_hot", warm_to_hot),
     ("cold_to_warm", cold_to_warm),
     ("quality_score",
       if 0 < total then ((hot * 3 + warm * 2 + cold * 1 : Int) : ℚ) / (total : ℚ) else 0)]

/-- The worked snapshot of §8 of the design notes. -/
def exampleRows : List (String × Int) :=
  [("Total Leads", 150), ("Qualified Leads", 45), ("Viewings Scheduled", 30),
   ("Viewings Completed", 25), ("Offers Made", 15), ("Offers Accepted", 10),
   ("Closed Sales", 8)]

/-- The worked snapshot of §8 as a `Metrics` dict. -/
def exampleM : Metrics := ofRows exampleRows

/-! ## Helper lemmas -/

/-- Folding integer-valued rows into a dict by successive assignment realises
last-write-wins lookup over the initial dict. -/
lemma metricsLoop_intRows (rows : List (String × Int)) (d0 : Metrics) (k : String) :
    exceptLookup (metricsLoop (rows.map (fun p => (p.1, Value.i p.2))) d0) k =
      some (match lookupLast rows k with
            | some v => some v
            | none => d0 k) := by
  induction rows generalizing d0 with
  | nil => rfl
  | cons p rest ih =>
    obtain ⟨k0, v0⟩ := p
    simp only [List.map_cons, metricsLoop, valueToInt]
    rw [ih]
    simp only [lookupLast]
    cases h : lookupLast rest k with
    | some w => rfl
    | none =>
      simp only [dset]
      by_cases hk : k = k0
      · simp [hk]
      · simp [hk]

/-- Membership in the sorted bottleneck list is membership in the filtered
candidate list. -/
lemma mem_calculate_bottleneck {m : Metrics} {b : Bneck} :
    b ∈ calculate_bottleneck m ↔ b ∈ bneckFilter m :=
  (List.perm_insertionSort rateLE (bneckFilter m)).mem_iff

/-- Inserting an element whose original position precedes everything in a
lex-ordered list keeps the list lex-ordered. -/
lemma orderedInsert_pairwise_lex (a : Bneck) (l : List Bneck)
    (hl : l.Pairwise lexLT) (ha : ∀ b ∈ l, stageIdx a.stage < stageIdx b.stage) :
    (List.orderedInsert rateLE a l).Pairwise lexLT := by
  induction l with
  | nil => simp [List.orderedInsert]
  | cons b l ih =>
    rw [List.orderedInsert]
    by_cases hab : rateLE a b
    · rw [if_pos hab]
      refine List.Pairwise.cons ?_ hl
      intro x hx
      rcases List.mem_cons.mp hx with rfl | hxl
      · rcases lt_or_eq_of_le hab with h | h
        · exact Or.inl h
        · exact Or.inr ⟨h, ha x (List.mem_cons_self _ _)⟩
      · have hbx : lexLT b x := (List.pairwise_cons.mp hl).1 x hxl
        have hbrate : b.rate ≤ x.rate := by
          rcases hbx with h | ⟨h, _⟩
          · exact le_of_lt h
          · exact le_of_eq h
        rcases lt_or_eq_of_le (le_trans hab hbrate) with h | h
        · exact Or.inl h
        · exact Or.inr ⟨h, ha x (List.mem_cons_of_mem _ hxl)⟩
    · rw [if_neg hab]
      have hba : b.rate < a.rate := lt_of_not_le hab
      refine List.Pairwise.cons ?_
        (ih (List.pairwise_cons.mp hl).2 (fun x hx => ha x (List.mem_cons_of_mem _ hx)))
      intro x hx
      rcases (List.mem_orderedInsert rateLE).mp hx with rfl | hxl
      · exact Or.inl hba
      · exact (List.pairwise_cons.mp hl).1 x hxl

/-- Insertion sort by rate applied to a list in original stage order is
lex-ordered by (rate, original stage position): this is exactly stability of
the stable sort. -/
lemma insertionSort_pairwise_lex (l : List Bneck)
    (h : l.Pairwise (fun a b => stageIdx a.stage < stageIdx b.stage)) :
    (List.insertionSort rateLE l).Pairwise lexLT := by
  induction l with
  | nil => simp
  | cons a l ih =>
    rw [List.insertionSort]
    obtain ⟨h1, h2⟩ := List.pairwise_cons.mp h
    refine orderedInsert_pairwise_lex a _ (ih h2) ?_
    intro b hb
    exact h1 b ((List.perm_insertionSort rateLE l).mem_iff.mp hb)

/-- The filtered candidate list is in strictly increasing original stage
order. -/
lemma bneckFilter_pairwise (m : Metrics) :
    (bneckFilter m).Pairwise (fun a b => stageIdx a.stage < stageIdx b.stage) := by
  have hsub : ((conversion_stages m).filter (fun t => 0 < t.2.1)).Sublist
      (conversion_stages m) := List.filter_sublist _
  have hp : (conversion_stages m).Pairwise
      (fun t u => stageIdx t.1 < stageIdx u.1) := by
    simp [conversion_stages, List.pairwise_cons]
    decide
  have := hp.sublist hsub
  rw [bneckFilter, List.pairwise_map]
  exact this.imp (by intro t u h; simpa [mkB] using h)

/-- In the `total == 0` early return, the three tier counts read as 0 and
there is no `quality_score` entry at all. -/
lemma temp_lookups_zero (m : Metrics) (ht : mget m "Total Leads" = 0) :
    lookupLast (calculate_lead_temperature m) "hot" = some 0 ∧
    lookupLast (calculate_lead_temperature m) "warm" = some 0 ∧
    lookupLast (calculate_lead_temperature m) "cold" = some 0 ∧
    lookupLast (calculate_lead_temperature m) "quality_score" = none := by
  simp [calculate_lead_temperature, ht, lookupLast]

/-- In the main branch, the tier-count and quality-score entries are the
source formulas. -/
lemma temp_lookups_pos (m : Metrics) (ht : ¬ mget m "Total Leads" = 0) :
    lookupLast (calculate_lead_temperature m) "hot" =
      some ((min (mget m "Viewings Completed")
        (mget m "Offers Made" + mget m "Offers Accepted") : Int) : ℚ) ∧
    lookupLast (calculate_lead_temperature m) "warm" =
      some ((max 0 (min (mget m "Qualified Leads")
        (mget m "Viewings Scheduled" + mget m "Viewings Completed") -
          min (mget m "Viewings Completed")
            (mget m "Offers Made" + mget m "Offers Accepted")) : Int) : ℚ) ∧
    lookupLast (calculate_lead_temperature m) "cold" =
      some ((max 0 (mget m "Total Leads" -
          min (mget m "Viewings Completed")
            (mget m "Offers Made" + mget m "Offers Accepted") -
          max 0 (min (mget m "Qualified Leads")
            (mget m "Viewings Scheduled" + mget m "Viewings Completed") -
              min (mget m "Viewings Completed")
                (mget m "Offers Made" + mget m "Offers Accepted"))) : Int) : ℚ) ∧
    lookupLast (calculate_lead_temperature m) "quality_score" =
      some (if 0 < mget m "Total Leads" then
        ((min (mget m "Viewings Completed")
            (mget m "Offers Made" + mget m "Offers Accepted") * 3 +
          max 0 (min (mget m "Qualified Leads")
            (mget m "Viewings Scheduled" + mget m "Viewings Completed") -
              min (mget m "Viewings Completed")
                (mget m "Offers Made" + mget m "Offers Accepted")) * 2 +
          max 0 (mget m "Total Leads" -
            min (mget m "Viewings Completed")
              (mget m "Offers Made" + mget m "Offers Accepted") -
            max 0 (min (mget m "Qualified Leads")
              (mget m "Viewings Scheduled" + mget m "Viewings Completed") -
                min (mget m "Viewings Completed")
                  (mget m "Offers Made" + mget m "Offers Accepted"))) * 1 : Int) : ℚ) /
          (mget m "Total Leads" : ℚ)
        else 0) := by
  simp [calculate_lead_temperature, ht, lookupLast]

/-- A transition label appears in the bottleneck output exactly when some
candidate tuple carries that label and a positive from-count. -/
lemma exists_stage_bottleneck (m : Metrics) (name : String) :
    (∃ b ∈ calculate_bottleneck m, b.stage = name) ↔
    (∃ t ∈ conversion_stages m, 0 < t.2.1 ∧ t.1 = name) := by
  constructor
  · rintro ⟨b, hb, rfl⟩
    rw [mem_calculate_bottleneck, bneckFilter] at hb
    obtain ⟨t, htf, rfl⟩ := List.mem_map.mp hb
    obtain ⟨hts, htp⟩ := List.mem_filter.mp htf
    exact ⟨t, hts, by simpa using htp, rfl⟩
  · rintro ⟨t, hts, htp, rfl⟩
    exact ⟨mkB t,
      mem_calculate_bottleneck.mpr
        (List.mem_map.mpr ⟨t, List.mem_filter.mpr ⟨hts, by simpa using htp⟩, rfl⟩), rfl⟩


/-! ## Claim C1 -/

/-- C1, counterexample: at the non-negative snapshot {Total Leads: 2,
Viewings Completed: 7, Offers Made: 7} the tiers are hot = 7, warm = 0,
cold = 0, whose sum 7 differs from Total Leads = 2, so hot + warm + cold =
Total Leads does not hold for every non-negative snapshot. -/
theorem leadTemperature_sum_cex :
    0 ≤ mget (ofRows [("Total Leads", 2), ("Viewings Completed", 7), ("Offers Made", 7)])
      "Total Leads" ∧
    0 ≤ mget (ofRows [("Total Leads", 2), ("Viewings Completed", 7), ("Offers Made", 7)])
      "Qualified Leads" ∧
    0 ≤ mget (ofRows [("Total Leads", 2), ("Viewings Completed", 7), ("Offers Made", 7)])
      "Viewings Scheduled" ∧
    0 ≤ mget (ofRows [("Total Leads", 2), ("Viewings Completed", 7), ("Offers Made", 7)])
      "Viewings Completed" ∧
    0 ≤ mget (ofRows [("Total Leads", 2), ("Viewings Completed", 7), ("Offers Made", 7)])
      "Offers Made" ∧
    0 ≤ mget (ofRows [("Total Leads", 2), ("Viewings Completed", 7), ("Offers Made", 7)])
      "Offers Accepted" ∧
    0 ≤ mget (ofRows [("Total Leads", 2), ("Viewings Completed", 7), ("Offers Made", 7)])
      "Closed Sales" ∧
    lookupLast (calculate_lead_temperature
      (ofRows [("Total Leads", 2), ("Viewings Completed", 7), ("Offers Made", 7)])) "hot" =
        some 7 ∧
    lookupLast (calculate_lead_temperature
      (ofRows [("Total Leads", 2), ("Viewings Completed", 7), ("Offers Made", 7)])) "warm" =
        some 0 ∧
    lookupLast (calculate_lead_temperature
      (ofRows [("Total Leads", 2), ("Viewings Completed", 7), ("Offers Made", 7)])) "cold" =
        some 0 ∧
    mget (ofRows [("Total Leads", 2), ("Viewings Completed", 7), ("Offers Made", 7)])
      "Total Leads" = 2 ∧
    (7 : ℚ) + 0 + 0 ≠ (2 : ℚ) := by
  refine ⟨by decide, by decide, by decide, by decide, by decide, by decide, by decide,
    ?_, ?_, ?_, by decide, by norm_num⟩ <;>
    simp [calculate_lead_temperature, lookupLast, mget, ofRows]

/-- C1 (amended): for snapshots of non-negative stage counts in which
Qualified Leads ≤ Total Leads and Viewings Completed ≤ Total Leads, the
tiers computed by `calculate_lead_temperature` follow the claimed formulas
hot = min(viewingsCompleted, offersMade + offersAccepted), warm = max(0,
min(qualified, viewingsScheduled + viewingsCompleted) − hot), cold = max(0,
total − hot − warm), each tier is ≥ 0, and hot + warm + cold = Total
Leads. -/
theorem leadTemperature_tiers (m : Metrics)
    (h1 : 0 ≤ mget m "Qualified Leads") (h2 : 0 ≤ mget m "Viewings Scheduled")
    (h3 : 0 ≤ mget m "Viewings Completed") (h4 : 0 ≤ mget m "Offers Made")
    (h5 : 0 ≤ mget m "Offers Accepted")
    (hq : mget m "Qualified Leads" ≤ mget m "Total Leads")
    (hv : mget m "Viewings Completed" ≤ mget m "Total Leads") :
    ∃ h w c : Int,
      h = min (mget m "Viewings Completed")
        (mget m "Offers Made" + mget m "Offers Accepted") ∧
      w = max 0 (min (mget m "Qualified Leads")
        (mget m "Viewings Scheduled" + mget m "Viewings Completed") - h) ∧
      c = max 0 (mget m "Total Leads" - h - w) ∧
      lookupLast (calculate_lead_temperature m) "hot" = some (h : ℚ) ∧
      lookupLast (calculate_lead_temperature m) "warm" = some (w : ℚ) ∧
      lookupLast (calculate_lead_temperature m) "cold" = some (c : ℚ) ∧
      0 ≤ h ∧ 0 ≤ w ∧ 0 ≤ c ∧ h + w + c = mget m "Total Leads" := by
  by_cases ht : mget m "Total Leads" = 0
  · obtain ⟨lh, lw, lc, -⟩ := temp_lookups_zero m ht
    have hvc : mget m "Viewings Completed" = 0 := le_antisymm (ht ▸ hv) h3
    have hq0 : mget m "Qualified Leads" = 0 := le_antisymm (ht ▸ hq) h1
    refine ⟨_, _, _, rfl, rfl, rfl, ?_, ?_, ?_, by omega, by omega, by omega, by omega⟩
    · rw [lh]
      simp only [Option.some.injEq]
      norm_cast
      omega
    · rw [lw]
      simp only [Option.some.injEq]
      norm_cast
      omega
    · rw [lc]
      simp only [Option.some.injEq]
      norm_cast
      omega
  · obtain ⟨lh, lw, lc, -⟩ := temp_lookups_pos m ht
    exact ⟨_, _, _, rfl, rfl, rfl, lh, lw, lc, by omega, by omega, by omega, by omega⟩

/-- C1 witness: at the worked §8 snapshot the tiers are hot = 25, warm = 20,
cold = 105, and their sum is Total Leads = 150. -/
theorem leadTemperature_tiers_witness :
    lookupLast (calculate_lead_temperature exampleM) "hot" = some 25 ∧
    lookupLast (calculate_lead_temperature exampleM) "warm" = some 20 ∧
    lookupLast (calculate_lead_temperature exampleM) "cold" = some 105 ∧
    (25 : Int) + 20 + 105 = mget exampleM "Total Leads" := by
  obtain ⟨h, w, c, e1, e2, e3, lh, lw, lc, -, -, -, hsum⟩ :=
    leadTemperature_tiers exampleM (by decide) (by decide) (by decide) (by decide)
      (by decide) (by decide) (by decide)
  have hh : h = 25 := by rw [e1]; decide
  have hw : w = 20 := by rw [e2, hh]; decide
  have hc : c = 105 := by rw [e3, hh, hw]; decide
  rw [hh] at lh
  rw [hw] at lw
  rw [hc] at lc
  rw [hh, hw, hc] at hsum
  exact ⟨lh.trans (by norm_num), lw.trans (by norm_num), lc.trans (by norm_num), hsum⟩

/-! ## Claim C5 -/

/-- Weighted tier average bounds. -/
lemma score_bounds (h w c T : Int) (hh : 0 ≤ h) (hw : 0 ≤ w) (hc : 0 ≤ c)
    (hs : h + w + c = T) (hT : 0 < T) :
    0 ≤ ((h * 3 + w * 2 + c * 1 : Int) : ℚ) / (T : ℚ) ∧
    ((h * 3 + w * 2 + c * 1 : Int) : ℚ) / (T : ℚ) ≤ 3 := by
  constructor
  · apply div_nonneg
    · exact_mod_cast (by omega : (0 : Int) ≤ h * 3 + w * 2 + c * 1)
    · exact_mod_cast le_of_lt hT
  · rw [div_le_iff₀ (by exact_mod_cast hT : (0 : ℚ) < (T : ℚ))]
    exact_mod_cast (by omega : h * 3 + w * 2 + c * 1 ≤ 3 * T)

/-- C5, counterexample: at the non-negative snapshot {Total Leads: 1,
Viewings Completed: 5, Offers Made: 5} the computed quality score is 15,
outside the claimed interval [0, 3]. -/
theorem qualityScore_range_cex :
    0 ≤ mget (ofRows [("Total Leads", 1), ("Viewings Completed", 5), ("Offers Made", 5)])
      "Total Leads" ∧
    0 ≤ mget (ofRows [("Total Leads", 1), ("Viewings Completed", 5), ("Offers Made", 5)])
      "Qualified Leads" ∧
    0 ≤ mget (ofRows [("Total Leads", 1), ("Viewings Completed", 5), ("Offers Made", 5)])
      "Viewings Scheduled" ∧
    0 ≤ mget (ofRows [("Total Leads", 1), ("Viewings Completed", 5), ("Offers Made", 5)])
      "Viewings Completed" ∧
    0 ≤ mget (ofRows [("Total Leads", 1), ("Viewings Completed", 5), ("Offers Made", 5)])
      "Offers Made" ∧
    0 ≤ mget (ofRows [("Total Leads", 1), ("Viewings Completed", 5), ("Offers Made", 5)])
      "Offers Accepted" ∧
    0 ≤ mget (ofRows [("Total Leads", 1), ("Viewings Completed", 5), ("Offers Made", 5)])
      "Closed Sales" ∧
    lookupLast (calculate_lead_temperature
      (ofRows [("Total Leads", 1), ("Viewings Completed", 5), ("Offers Made", 5)]))
      "quality_score" = some 15 ∧
    ¬ ((15 : ℚ) ≤ 3) := by
  refine ⟨by decide, by decide, by decide, by decide, by decide, by decide, by decide,
    ?_, by norm_num⟩
  simp [calculate_lead_temperature, lookupLast, mget, ofRows]

/-- C5 (amended): for non-negative snapshots whose Qualified Leads and
Viewings Completed counts do not exceed Total Leads and with Total Leads
positive, the `quality_score` entry equals (hot×3 + warm×2 + cold×1)/total
and lies in [0, 3]; when Total Leads is 0 the returned breakdown contains no
quality-score entry at all (the early return omits the key). -/
theorem qualityScore_spec :
    (∀ m : Metrics,
      0 ≤ mget m "Qualified Leads" → 0 ≤ mget m "Viewings Scheduled" →
      0 ≤ mget m "Viewings Completed" → 0 ≤ mget m "Offers Made" →
      0 ≤ mget m "Offers Accepted" →
      mget m "Qualified Leads" ≤ mget m "Total Leads" →
      mget m "Viewings Completed" ≤ mget m "Total Leads" →
      0 < mget m "Total Leads" →
      ∃ h w c : Int,
        h = min (mget m "Viewings Completed")
          (mget m "Offers Made" + mget m "Offers Accepted") ∧
        w = max 0 (min (mget m "Qualified Leads")
          (mget m "Viewings Scheduled" + mget m "Viewings Completed") - h) ∧
        c = max 0 (mget m "Total Leads" - h - w) ∧
        lookupLast (calculate_lead_temperature m) "quality_score" =
          some (((h * 3 + w * 2 + c * 1 : Int) : ℚ) / (mget m "Total Leads" : ℚ)) ∧
        0 ≤ ((h * 3 + w * 2 + c * 1 : Int) : ℚ) / (mget m "Total Leads" : ℚ) ∧
        ((h * 3 + w * 2 + c * 1 : Int) : ℚ) / (mget m "Total Leads" : ℚ) ≤ 3) ∧
    (∀ m : Metrics, mget m "Total Leads" = 0 →
      lookupLast (calculate_lead_temperature m) "quality_score" = none) := by
  constructor
  · intro m h1 h2 h3 h4 h5 hq hv htpos
    have ht : ¬ mget m "Total Leads" = 0 := by omega
    obtain ⟨-, -, -, lq⟩ := temp_lookups_pos m ht
    rw [if_pos htpos] at lq
    refine ⟨_, _, _, rfl, rfl, rfl, lq, ?_, ?_⟩
    · exact (score_bounds _ _ _ _ (by omega) (by omega) (by omega) (by omega) htpos).1
    · exact (score_bounds _ _ _ _ (by omega) (by omega) (by omega) (by omega) htpos).2
  · intro m ht
    exact (temp_lookups_zero m ht).2.2.2

/-- C5 witness: at the worked §8 snapshot the quality score is
(25×3 + 20×2 + 105×1)/150 = 22/15 ≈ 1.47, inside [0, 3]. -/
theorem qualityScore_spec_witness :
    lookupLast (calculate_lead_temperature exampleM) "quality_score" = some (22 / 15) ∧
    0 ≤ (22 / 15 : ℚ) ∧ (22 / 15 : ℚ) ≤ 3 := by
  obtain ⟨h, w, c, e1, e2, e3, lq, -, -⟩ :=
    qualityScore_spec.1 exampleM (by decide) (by decide) (by decide) (by decide)
      (by decide) (by decide) (by decide) (by decide)
  have hh : h = 25 := by rw [e1]; decide
  have hw : w = 20 := by rw [e2, hh]; decide
  have hc : c = 105 := by rw [e3, hh, hw]; decide
  rw [hh, hw, hc] at lq
  refine ⟨lq.trans ?_, by norm_num, by norm_num⟩
  simp [mget, exampleM, ofRows, lookupLast]
  norm_num

/-! ## Claim C2 -/

/-- C2, counterexample: the snapshot {Offers Made: 5, Offers Accepted: 3}
has Total Leads = 0, yet `calculate_bottleneck` returns a non-empty list
(its per-pair guard looks at each pair's own source count, not at Total
Leads), so not every function returns a zero/empty result when Total
Leads = 0. -/
theorem zeroTotal_cex :
    mget (ofRows [("Offers Made", 5), ("Offers Accepted", 3)]) "Total Leads" = 0 ∧
    calculate_bottleneck (ofRows [("Offers Made", 5), ("Offers Accepted", 3)]) ≠ [] := by
  constructor
  · decide
  · simp [calculate_bottleneck, bneckFilter, conversion_stages, mget, ofRows, mkB,
      lookupLast, List.insertionSort, List.orderedInsert, rateLE]
    norm_num
    simp

/-- C2 (amended): when Total Leads = 0, the projection function returns the
empty dict and the temperature function returns the all-zero six-entry
breakdown, and the Lead → Qualified and overall close rates are 0; the
remaining rate functions and the bottleneck list are zero/empty provided
their own source-stage counts are also 0 (in particular for the all-zero
snapshot).  All functions are total, so none raises. -/
theorem zeroTotal_spec (m : Metrics) (ht : mget m "Total Leads" = 0) :
    calculate_projections m = [] ∧
    calculate_lead_temperature m =
      [("hot", 0), ("warm", 0), ("cold", 0),
       ("hot_pct", 0), ("warm_pct", 0), ("cold_pct", 0)] ∧
    lead_to_qual_rate m = 0 ∧ overall_close_rate m = 0 ∧
    ((∀ k ∈ canonicalStages, mget m k = 0) →
      calculate_bottleneck m = [] ∧ qual_to_sched_rate m = 0 ∧
      sched_to_comp_rate m = 0 ∧ comp_to_offer_rate m = 0 ∧
      offer_to_accept_rate m = 0 ∧ accept_to_close_rate m = 0) := by
  refine ⟨?_, ?_, ?_, ?_, ?_⟩
  · simp [calculate_projections, ht]
  · simp [calculate_lead_temperature, ht]
  · simp [lead_to_qual_rate, ht]
  · simp [overall_close_rate, ht]
  · intro hz
    have hq := hz "Qualified Leads" (by decide)
    have hvs := hz "Viewings Scheduled" (by decide)
    have hvc := hz "Viewings Completed" (by decide)
    have hom := hz "Offers Made" (by decide)
    have hoa := hz "Offers Accepted" (by decide)
    refine ⟨?_, ?_, ?_, ?_, ?_, ?_⟩
    · simp [calculate_bottleneck, bneckFilter, conversion_stages, ht, hq, hvc, hom, hoa]
    · simp [qual_to_sched_rate, hq]
    · simp [sched_to_comp_rate, hvs]
    · simp [comp_to_offer_rate, hvc]
    · simp [offer_to_accept_rate, hom]
    · simp [accept_to_close_rate, hoa]

/-- C2 witness: the amended statement applied to the empty snapshot. -/
theorem zeroTotal_spec_witness :
    calculate_projections (ofRows []) = [] ∧ calculate_bottleneck (ofRows []) = [] :=
  ⟨(zeroTotal_spec (ofRows []) (by decide)).1,
   ((zeroTotal_spec (ofRows []) (by decide)).2.2.2.2 (by decide)).1⟩

/-! ## Claim C3 -/

/-- C3, counterexample: for the non-empty input [("Total Leads", 5)],
`calculate_metrics` returns a dict in which the canonical stage "Qualified
Leads" is absent (lookup yields `none`), so the key set does not include
every canonical stage. -/
theorem computeSnapshot_keys_cex :
    "Qualified Leads" ∈ canonicalStages ∧
    exceptLookup (calculate_metrics [("Total Leads", Value.i 5)]) "Qualified Leads" =
      some none := by
  constructor <;> decide

/-- C3 (amended): only for an empty input does `calculate_metrics` return
the canonical seven-stage dict with every stage mapped to 0; for a non-empty
sequence of integer-valued rows the resulting dict is exactly last-write-wins
over the input rows (duplicate stage labels resolved last-write-wins), with
canonical stages absent from the input absent from the dict (downstream
reads default them to 0 via `metrics.get(stage, 0)`). -/
theorem computeSnapshot_spec :
    (∀ k ∈ canonicalStages, exceptLookup (calculate_metrics []) k = some (some 0)) ∧
    (∀ rows : List (String × Int), rows ≠ [] → ∀ k : String,
      exceptLookup (calculate_metrics (rows.map (fun p => (p.1, Value.i p.2)))) k =
        some (lookupLast rows k)) := by
  constructor
  · intro k hk
    simp [calculate_metrics, exceptLookup, hk]
  · intro rows hne k
    have hmap : (rows.map (fun p => (p.1, Value.i p.2))).isEmpty = false := by
      cases rows with
      | nil => exact absurd rfl hne
      | cons p rest => rfl
    rw [calculate_metrics, hmap]
    simp only [Bool.false_eq_true, if_false]
    rw [metricsLoop_intRows]
    cases h : lookupLast rows k <;> rfl

/-- C3 witness: duplicate rows resolve last-write-wins, and the empty input
produces canonical zeros. -/
theorem computeSnapshot_spec_witness :
    exceptLookup (calculate_metrics
        [("Total Leads", Value.i 5), ("Total Leads", Value.i 7)]) "Total Leads" =
      some (some 7) ∧
    exceptLookup (calculate_metrics []) "Closed Sales" = some (some 0) :=
  ⟨(computeSnapshot_spec.2 [("Total Leads", 5), ("Total Leads", 7)] (by decide)
      "Total Leads").trans (by decide),
   computeSnapshot_spec.1 "Closed Sales" (by decide)⟩

/-! ## Claim C6 -/

/-- C6: a malformed count aborts the whole `calculate_metrics` computation
with an uncaught ValueError — the Python exception from `int("abc")`
propagates out of the refresh, no snapshot is produced, and the valid row
after the offending one is never processed (it is not excluded or zeroed
into a surviving snapshot, and there is no distinct MalformedInput error
kind). -/
theorem malformed_count_aborts :
    calculate_metrics [("Total Leads", Value.s "abc"), ("Qualified Leads", Value.i 5)] =
      Except.error (PyErr.valueError "abc") := rfl

/-! ## Claim C4 -/

/-- C4: for every snapshot, a transition pair appears in the bottleneck
output iff its source-stage count is > 0; the output is sorted ascending by
conversion rate; ties between equal rates preserve the original canonical
stage order (the `Pairwise lexLT` conjunct: every earlier element has a
strictly smaller rate or an equal rate and an earlier original stage
position); and the first element has minimal rate, i.e. it is the designated
critical bottleneck (`main` reads `bottlenecks[0]` as `worst`). -/
theorem bottleneck_order_spec (m : Metrics) :
    (∀ t ∈ conversion_stages m,
      ((∃ b ∈ calculate_bottleneck m, b.stage = t.1) ↔ 0 < t.2.1)) ∧
    (calculate_bottleneck m).Sorted rateLE ∧
    (calculate_bottleneck m).Pairwise lexLT ∧
    (∀ first ∈ (calculate_bottleneck m).head?, ∀ b ∈ calculate_bottleneck m,
      first.rate ≤ b.rate) := by
  refine ⟨?_, ?_, ?_, ?_⟩
  · intro t ht
    rw [exists_stage_bottleneck]
    simp only [conversion_stages, List.mem_cons, List.not_mem_nil, or_false] at ht
    rcases ht with rfl | rfl | rfl | rfl | rfl <;> simp [conversion_stages]
  · exact List.sorted_insertionSort rateLE (bneckFilter m)
  · exact insertionSort_pairwise_lex _ (bneckFilter_pairwise m)
  · intro first hfirst b hb
    cases hl : calculate_bottleneck m with
    | nil => rw [hl] at hfirst; simp at hfirst
    | cons a l =>
      rw [hl] at hfirst hb
      simp only [List.head?_cons, Option.mem_def, Option.some.injEq] at hfirst
      subst hfirst
      have hs : (a :: l).Sorted rateLE := by
        rw [← hl]; exact List.sorted_insertionSort rateLE (bneckFilter m)
      rcases List.mem_cons.mp hb with rfl | hbl
      · exact le_refl _
      · exact List.rel_of_sorted_cons hs b hbl

/-- C4 witness: at the worked §8 snapshot the output is sorted by rate and
the first element (Lead → Qualified, 30%) has rate no larger than the last
(Accepted → Closed, 80%). -/
theorem bottleneck_order_spec_witness :
    (calculate_bottleneck exampleM).Sorted rateLE ∧
    (mkB ("Lead → Qualified", 150, 45)).rate ≤ (mkB ("Accepted → Closed", 10, 8)).rate := by
  refine ⟨(bottleneck_order_spec exampleM).2.1, ?_⟩
  refine (bottleneck_order_spec exampleM).2.2.2 (mkB ("Lead → Qualified", 150, 45)) ?_
    (mkB ("Accepted → Closed", 10, 8)) ?_
  · simp [calculate_bottleneck, bneckFilter, conversion_stages, mget, exampleM, ofRows,
      lookupLast, mkB, List.insertionSort, List.orderedInsert, rateLE]
    norm_num [List.orderedInsert, rateLE]
  · rw [mem_calculate_bottleneck]
    simp [bneckFilter, conversion_stages, mget, exampleM, ofRows, lookupLast]

/-! ## Claim C7 -/

/-- C7: for every snapshot with Total Leads > 0 (and the hard-coded horizon
of 100), each projected stage count equals the integer truncation of
horizon × (stage count / Total Leads) — `pyInt` is truncation toward zero,
which on the non-negative arguments here is the floor, not rounding — and at
the worked §8 snapshot the projected qualified count is 30 and the projected
closed count is 5. -/
theorem projections_trunc_spec (m : Metrics) (ht : 0 < mget m "Total Leads") :
    lookupLast (calculate_projections m) "projected_qualified" =
      some ((pyInt (100 * ((mget m "Qualified Leads" : ℚ) / (mget m "Total Leads" : ℚ))) : Int) : ℚ) ∧
    lookupLast (calculate_projections m) "projected_viewings" =
      some ((pyInt (100 * ((mget m "Viewings Completed" : ℚ) / (mget m "Total Leads" : ℚ))) : Int) : ℚ) ∧
    lookupLast (calculate_projections m) "projected_offers" =
      some ((pyInt (100 * ((mget m "Offers Made" : ℚ) / (mget m "Total Leads" : ℚ))) : Int) : ℚ) ∧
    lookupLast (calculate_projections m) "projected_closed" =
      some ((pyInt (100 * ((mget m "Closed Sales" : ℚ) / (mget m "Total Leads" : ℚ))) : Int) : ℚ) ∧
    (∀ q : ℚ, 0 ≤ q → pyInt q = ⌊q⌋) ∧
    lookupLast (calculate_projections exampleM) "projected_qualified" = some 30 ∧
    lookupLast (calculate_projections exampleM) "projected_closed" = some 5 := by
  have ht' : ¬ mget m "Total Leads" = 0 := by omega
  refine ⟨?_, ?_, ?_, ?_, ?_, ?_, ?_⟩
  · simp [calculate_projections, ht', lookupLast]
  · simp [calculate_projections, ht', lookupLast]
  · simp [calculate_projections, ht', lookupLast]
  · simp [calculate_projections, ht', lookupLast]
  · intro q hq; simp [pyInt, hq]
  · simp [calculate_projections, lookupLast, mget, exampleM, ofRows]
    norm_num [pyInt, Int.floor_eq_iff]
  · simp [calculate_projections, lookupLast, mget, exampleM, ofRows]
    norm_num [pyInt, Int.floor_eq_iff]

/-- C7 witness: the statement applied to the worked §8 snapshot. -/
theorem projections_trunc_spec_witness :
    lookupLast (calculate_projections exampleM) "projected_qualified" =
      some ((pyInt (100 * ((mget exampleM "Qualified Leads" : ℚ) /
        (mget exampleM "Total Leads" : ℚ))) : Int) : ℚ) ∧
    lookupLast (calculate_projections exampleM) "projected_closed" = some 5 :=
  ⟨(projections_trunc_spec exampleM (by decide)).1,
   (projections_trunc_spec exampleM (by decide)).2.2.2.2.2.2⟩

/-! ## Claim C8 -/

/-- C8: for every snapshot with Total Leads > 0, each what-if delta equals
horizon × min(rate × 1.1, 1.0) × (closeRate / rate) for the improved
stage's top-of-funnel rate, truncated to integer (the source's differently
associated products are equal in exact arithmetic), and equals 0 when that
rate is 0 (the defensive zero-rate short-circuit instead of dividing by
zero). -/
theorem whatif_spec (m : Metrics) (ht : 0 < mget m "Total Leads") :
    (0 < (mget m "Qualified Leads" : ℚ) / (mget m "Total Leads" : ℚ) →
      lookupLast (calculate_projections m) "if_qual_improves_10" =
        some ((pyInt (100 *
          min ((mget m "Qualified Leads" : ℚ) / (mget m "Total Leads" : ℚ) * (11 / 10)) 1 *
          (((mget m "Closed Sales" : ℚ) / (mget m "Total Leads" : ℚ)) /
            ((mget m "Qualified Leads" : ℚ) / (mget m "Total Leads" : ℚ)))) : Int) : ℚ)) ∧
    ((mget m "Qualified Leads" : ℚ) / (mget m "Total Leads" : ℚ) = 0 →
      lookupLast (calculate_projections m) "if_qual_improves_10" = some 0) ∧
    (0 < (mget m "Viewings Completed" : ℚ) / (mget m "Total Leads" : ℚ) →
      lookupLast (calculate_projections m) "if_viewing_improves_10" =
        some ((pyInt (100 *
          min ((mget m "Viewings Completed" : ℚ) / (mget m "Total Leads" : ℚ) * (11 / 10)) 1 *
          (((mget m "Closed Sales" : ℚ) / (mget m "Total Leads" : ℚ)) /
            ((mget m "Viewings Completed" : ℚ) / (mget m "Total Leads" : ℚ)))) : Int) : ℚ)) ∧
    ((mget m "Viewings Completed" : ℚ) / (mget m "Total Leads" : ℚ) = 0 →
      lookupLast (calculate_projections m) "if_viewing_improves_10" = some 0) := by
  have ht' : ¬ mget m "Total Leads" = 0 := by omega
  refine ⟨?_, ?_, ?_, ?_⟩
  · intro hr
    simp only [calculate_projections, ht', if_false, lookupLast]
    simp [lookupLast, hr]
    congr 1
    ring
  · intro hr
    simp [calculate_projections, ht', lookupLast, hr]
  · intro hr
    simp only [calculate_projections, ht', if_false, lookupLast]
    simp [lookupLast, hr]
    congr 1
    ring
  · intro hr
    simp [calculate_projections, ht', lookupLast, hr]

/-- C8 witness: the qualification-rate what-if delta at the worked §8
snapshot. -/
theorem whatif_spec_witness :
    lookupLast (calculate_projections exampleM) "if_qual_improves_10" =
      some ((pyInt (100 *
        min ((mget exampleM "Qualified Leads" : ℚ) / (mget exampleM "Total Leads" : ℚ) * (11 / 10)) 1 *
        (((mget exampleM "Closed Sales" : ℚ) / (mget exampleM "Total Leads" : ℚ)) /
          ((mget exampleM "Qualified Leads" : ℚ) / (mget exampleM "Total Leads" : ℚ)))) : Int) : ℚ) :=
  (whatif_spec exampleM (by decide)).1 (by simp [mget, exampleM, ofRows, lookupLast])

/-! ## Claim C9 -/

/-- C9: for every snapshot and every adjacent pair (A, B) of the canonical
stage order, the funnel conversion rate computed in `main` equals
B/A × 100 when A's count is > 0 and equals 0 when A's count is 0; the
functions are total, so the zero-denominator case yields 0, never an
error. -/
theorem funnelRates_spec (m : Metrics) (i : Nat) (hi : i < 6) :
    (0 < mget m (funnelPairs.getD i ("", "")).1 →
      (mainRates m).getD i 0 =
        (mget m (funnelPairs.getD i ("", "")).2 : ℚ) /
          (mget m (funnelPairs.getD i ("", "")).1 : ℚ) * 100) ∧
    (mget m (funnelPairs.getD i ("", "")).1 = 0 →
      (mainRates m).getD i 0 = 0) := by
  interval_cases i <;> refine ⟨fun h => ?_, fun h => ?_⟩ <;>
    simp only [funnelPairs, List.getD_cons_zero, List.getD_cons_succ] at h <;>
    simp [mainRates, funnelPairs, lead_to_qual_rate, qual_to_sched_rate,
      sched_to_comp_rate, comp_to_offer_rate, offer_to_accept_rate,
      accept_to_close_rate, h]

/-- C9 witness: the Lead → Qualified rate at the worked §8 snapshot. -/
theorem funnelRates_spec_witness :
    (mainRates exampleM).getD 0 0 =
      (mget exampleM (funnelPairs.getD 0 ("", "")).2 : ℚ) /
        (mget exampleM (funnelPairs.getD 0 ("", "")).1 : ℚ) * 100 :=
  (funnelRates_spec exampleM 0 (by decide)).1 (by decide)

/-! ## Claim C10 -/

/-- C10: every bottleneck entry carries rate exactly to_count/from_count ×
100 and drop_off exactly from_count − to_count, with no clamping: at the
snapshot {Total Leads: 2, Qualified Leads: 5}, where the destination count
exceeds the source count, the returned entry has rate > 100 and negative
drop_off. -/
theorem bottleneck_noclamp_spec (m : Metrics) :
    (∀ b ∈ calculate_bottleneck m,
      b.rate = (b.dst : ℚ) / (b.src : ℚ) * 100 ∧ b.drop = b.src - b.dst) ∧
    (∃ b ∈ calculate_bottleneck (ofRows [("Total Leads", 2), ("Qualified Leads", 5)]),
      100 < b.rate ∧ b.drop < 0) := by
  constructor
  · intro b hb
    rw [mem_calculate_bottleneck, bneckFilter] at hb
    obtain ⟨t, -, rfl⟩ := List.mem_map.mp hb
    exact ⟨rfl, rfl⟩
  · simp [calculate_bottleneck, bneckFilter, conversion_stages, mget, ofRows, mkB,
      lookupLast, List.insertionSort, List.orderedInsert, rateLE]
    norm_num

/-- C10 witness: the Lead → Qualified entry of the over-100% snapshot
satisfies the unclamped formulas. -/
theorem bottleneck_noclamp_spec_witness :
    (mkB ("Lead → Qualified", 2, 5)).rate =
      ((mkB ("Lead → Qualified", 2, 5)).dst : ℚ) /
        ((mkB ("Lead → Qualified", 2, 5)).src : ℚ) * 100 ∧
    (mkB ("Lead → Qualified", 2, 5)).drop =
      (mkB ("Lead → Qualified", 2, 5)).src - (mkB ("Lead → Qualified", 2, 5)).dst :=
  (bottleneck_noclamp_spec (ofRows [("Total Leads", 2), ("Qualified Leads", 5)])).1
    (mkB ("Lead → Qualified", 2, 5))
    (by rw [mem_calculate_bottleneck]
        simp [bneckFilter, conversion_stages, mget, ofRows, lookupLast])

end Dash
